import Mathlib

/-!
Shallow embedding of the proof-composition pipeline of the KILT DIP SDK
(`@kiltprotocol/dip-sdk`), covering the anchor resolver
(`generateProviderStateRootProof`), the commitment resolver
(`generateDipCommitmentProof`), the disclosure builder
(`generateDipIdentityProof`), the cross-chain authorizer
(`generateTimeBoundDipDidSignature`) and the proof assemblers
(`generateDipSiblingBaseProof`, `generateDipAuthorizedTxForSibling`,
`generateDipSubmittableExtrinsic`).

Chain RPC endpoints (relay, provider, consumer) are modelled as total
functions packaged in environment structures: the spec treats the RPC
transport as an external collaborator, so transport failures are out of
scope and every remote read is assumed to answer.  Block hashes, SCALE
codec values and raw storage proofs are modelled as natural numbers; the
storage keys handed to `state_getReadProof` are modelled by an explicit
inductive type so that the exact requested key is visible in theorems.
-/

namespace DipSdk

/-- Block hashes (provider, relay and consumer chains) are abstract values. -/
abbrev Hash := Nat

/-- An opaque raw storage read proof as returned by `state_getReadProof`. -/
abbrev ProofData := Nat

/-- A storage key passed to `state_getReadProof`.

`headsKey paraId` is the relay chain's `paras.heads` map entry for the given
parachain id, i.e. `relayApi.query.paras.heads.key(providerParaId)`.
`headsKeyNoArg` is the result of the argument-less call
`relayApi.query.paras.heads.key()` appearing in
`src/stateProof/providerStateRoot.ts`: no parachain identifier is supplied,
so whatever that call denotes (polkadot-js rejects the missing map argument
at runtime; at best it is the bare map prefix), it is not the keyed entry
for the provider's para id.
`commitmentKey subject version` is the provider chain's
`dipProvider.identityCommitments` double-map entry. -/
inductive StorageKey where
  | headsKey (paraId : Nat)
  | headsKeyNoArg
  | commitmentKey (subject : String) (version : Nat)
  deriving DecidableEq, Repr

/-- The errors surfaced by the pipeline legs.  `anchorNotProvable` models the
`Error` thrown by the utils-era `generateProviderStateRootProof` when the
target provider block is not followed by a finalized block;
`headDataMissing` models `providerHeadData.unwrap()` throwing on `None`;
`disclosureError` models the `Error` built from
`providerApi.findError(...).docs` in `generateDipIdentityProof`;
`signingFailure` models a rejection of the caller-supplied signing callback;
`commitmentNotFound` is the error named by the specification for the
commitment resolver (the source never constructs it, see the theorems). -/
inductive DipError where
  | anchorNotProvable (providerBlockHeight latestFinalized : Nat)
  | headDataMissing
  | disclosureError (docs : String)
  | signingFailure (msg : String)
  | commitmentNotFound
  deriving DecidableEq, Repr

/-! ### Anchor resolver, utils era (`src/unnamed/part_008`)

`generateProviderStateRootProof` takes a target provider block height,
checks it is strictly below the latest finalized provider block, reads the
next provider block `N+1` to learn the relay parent it cites, and fetches
the read proof of the provider's `paras.heads` entry at that relay block. -/

/-- Environment of the utils-era anchor resolver:
`bestNumberFinalized` is `providerApi.derive.chain.bestNumberFinalized()`;
`providerBlockHash n` is the header hash of provider block `n`
(`providerApi.derive.chain.getBlockByNumber(n)`);
`providerParaId` is `providerApi.query.parachainInfo.parachainId()`;
`lastRelayChainBlockNumber h` is
`providerApi.at(h).query.parachainSystem.lastRelayChainBlockNumber()`;
`relayBlockHash n` is `relayApi.rpc.chain.getBlockHash(n)`;
`getReadProof keys at` is `relayApi.rpc.state.getReadProof(keys, at)`. -/
structure AnchorEnv where
  bestNumberFinalized : Nat
  providerBlockHash : Nat → Hash
  providerParaId : Nat
  lastRelayChainBlockNumber : Hash → Nat
  relayBlockHash : Nat → Hash
  getReadProof : List StorageKey → Hash → ProofData

/-- Result of the utils-era anchor resolver (`ProviderStateRootProofRes` of
`part_008`): only the raw proof and the relay block height are returned. -/
structure ProviderStateRootProofRes where
  proof : ProofData
  relayBlockHeight : Nat
  deriving DecidableEq, Repr

/-- Embedding of `generateProviderStateRootProof` from `src/unnamed/part_008`
(lines 48-87).  The provability guard compares the BN delta
`latestProviderFinalizedBlockNumber - providerBlockHeight` against zero
(`blockDelta.cmpn(0) > 0`), hence the signed subtraction below. -/
def generateProviderStateRootProof (env : AnchorEnv) (providerBlockHeight : Nat) :
    Except DipError ProviderStateRootProofRes :=
  let latestProviderFinalizedBlockNumber := env.bestNumberFinalized
  let nextProviderBlockHash := env.providerBlockHash (providerBlockHeight + 1)
  let blockDelta : Int :=
    (latestProviderFinalizedBlockNumber : Int) - (providerBlockHeight : Int)
  let isProviderBlockProvable := 0 < blockDelta
  if ¬ isProviderBlockProvable then
    .error (.anchorNotProvable providerBlockHeight latestProviderFinalizedBlockNumber)
  else
    let providerParaId := env.providerParaId
    let relayParentBlockNumber := env.lastRelayChainBlockNumber nextProviderBlockHash
    let relayParentBlockHash := env.relayBlockHash relayParentBlockNumber
    let proof := env.getReadProof [.headsKey providerParaId] relayParentBlockHash
    .ok { proof := proof, relayBlockHeight := relayParentBlockNumber }

/-- The relay block height the utils-era resolver anchors to: the relay
parent cited by the next provider block `N+1`. -/
def anchorRelayHeight (env : AnchorEnv) (providerBlockHeight : Nat) : Nat :=
  env.lastRelayChainBlockNumber (env.providerBlockHash (providerBlockHeight + 1))

/-- A concrete environment for the utils-era anchor resolver with five
finalized provider blocks. -/
def anchorEnvA : AnchorEnv where
  bestNumberFinalized := 5
  providerBlockHash := fun n => 10 * n
  providerParaId := 2000
  lastRelayChainBlockNumber := fun h => h + 1
  relayBlockHash := fun n => n + 7
  getReadProof := fun keys at_ => at_ * 100 + keys.length

/-- A concrete environment in which every provider block cites the same
relay parent, so distinct target heights produce identical results. -/
def anchorEnvB : AnchorEnv where
  bestNumberFinalized := 5
  providerBlockHash := fun n => 10 * n
  providerParaId := 2000
  lastRelayChainBlockNumber := fun _ => 0
  relayBlockHash := fun n => n
  getReadProof := fun _ _ => 0

/-- The claim that the utils-era anchor result identifies the target
provider block `N`: some reading of the result recovers `N` from it.  The
result type has no `providerBlockHeight`/`providerBlockHash` field, so this
is the faithful rendering of "the returned anchor's
providerBlockHeight/Hash match N". -/
def anchorResultDeterminesProviderBlock : Prop :=
  ∃ f : ProviderStateRootProofRes → Nat,
    ∀ (env : AnchorEnv) (providerBlockHeight : Nat) (r : ProviderStateRootProofRes),
      generateProviderStateRootProof env providerBlockHeight = .ok r →
      f r = providerBlockHeight

/-- The statement of claim C2 over the embedding: for every provably
anchorable provider block the resolver succeeds with the proof fetched at
the relay parent cited by block `N+1`, and the returned anchor identifies
provider block `N`. -/
def anchorClaimWithIdentification : Prop :=
  (∀ (env : AnchorEnv) (n : Nat), n < env.bestNumberFinalized →
    generateProviderStateRootProof env n =
      .ok { proof := env.getReadProof [.headsKey env.providerParaId]
                       (env.relayBlockHash (anchorRelayHeight env n)),
            relayBlockHeight := anchorRelayHeight env n }) ∧
  anchorResultDeterminesProviderBlock

/-! ### Anchor resolver, current tree (`src/src/stateProof/providerStateRoot.ts`)

This revision of `generateProviderStateRootProof` takes a relay block
height instead of a provider block height: it reads the provider head
recorded in the relay chain's `paras.heads` entry at that relay block,
unwraps it (throwing when the entry is `None`), resolves the provider
header behind it, and fetches the read proof — passing
`relayApi.query.paras.heads.key()` with no parachain-id argument. -/

/-- Environment of the `providerStateRoot.ts` anchor resolver:
`relayBlockHashAt n` is
`relayApi.derive.chain.getBlockByNumber(n).block.header.hash`;
`parasHeadsAt h paraId` is
`relayApi.at(h).query.paras.heads(paraId)`, an `Option` whose payload's
first 32 bytes are the recorded provider block hash;
`providerParachainId` is `providerApi.query.parachainInfo.parachainId()`;
`providerHeaderNumber h` is the block number in the header returned by
`providerApi.rpc.chain.getBlock(h)`;
`getReadProof keys at` is `relayApi.rpc.state.getReadProof(keys, at)`. -/
structure RelayAnchorEnv where
  relayBlockHashAt : Nat → Hash
  parasHeadsAt : Hash → Nat → Option Hash
  providerParachainId : Nat
  providerHeaderNumber : Hash → Nat
  getReadProof : List StorageKey → Hash → ProofData

/-- Result of the `providerStateRoot.ts` anchor resolver
(`ProviderStateRootProofRes` of that file, first revision). -/
structure ProviderStateRootProofResV2 where
  proof : ProofData
  relayBlockHash : Hash
  relayBlockHeight : Nat
  providerBlockHash : Hash
  providerBlockHeight : Nat
  deriving DecidableEq, Repr

/-- Embedding of `generateProviderStateRootProof` from
`src/src/stateProof/providerStateRoot.ts` (lines 55-86).  The read proof is
requested with the argument-less `relayApi.query.paras.heads.key()` — the
provider's parachain id fetched two steps earlier is used for the head
lookup but not for the proof key, so the requested key is modelled by
`StorageKey.headsKeyNoArg`. -/
def generateProviderStateRootProofAtRelayBlock (env : RelayAnchorEnv)
    (relayBlockHeight : Nat) : Except DipError ProviderStateRootProofResV2 :=
  let providerParaId := env.providerParachainId
  let relayBlockHash := env.relayBlockHashAt relayBlockHeight
  match env.parasHeadsAt relayBlockHash providerParaId with
  | none => .error .headDataMissing
  | some providerBlockHash =>
    let providerStoredHeaderNumber := env.providerHeaderNumber providerBlockHash
    let proof := env.getReadProof [.headsKeyNoArg] relayBlockHash
    .ok { proof := proof
          relayBlockHash := relayBlockHash
          relayBlockHeight := relayBlockHeight
          providerBlockHash := providerBlockHash
          providerBlockHeight := providerStoredHeaderNumber }

/-- A concrete environment for the `providerStateRoot.ts` resolver whose
read-proof oracle answers 1 exactly on the keyed `paras.heads` entry of the
provider's para id and 0 on every other request. -/
def relayAnchorEnvA : RelayAnchorEnv where
  relayBlockHashAt := fun n => n + 100
  parasHeadsAt := fun h _ => some (h + 1)
  providerParachainId := 2000
  providerHeaderNumber := fun h => h + 2
  getReadProof := fun keys _ => if keys = [.headsKey 2000] then 1 else 0

/-! ### Commitment resolver (`src/src/stateProof/subjectDipCommitment.ts`)

`generateDipCommitmentProof` fetches the storage read proof of the
`dipProvider.identityCommitments` entry keyed by the chain-encoded subject
and the requested version, at the given provider block hash.  The
`part_013` utils revision is line-for-line the same computation. -/

/-- Environment of the commitment resolver:
`toChain did` is `toChain(didUri)` from `@kiltprotocol/did` (the
chain-native encoding of the subject);
`commitments subject version blockHash` is the provider chain's
`dipProvider.identityCommitments` storage content — read-only context used
to state existence claims, never consulted by the resolver itself;
`getReadProof keys at` is `providerApi.rpc.state.getReadProof(keys, at)`. -/
structure CommitmentEnv where
  toChain : String → String
  commitments : String → Nat → Hash → Option Nat
  getReadProof : List StorageKey → Hash → ProofData

/-- Result of the commitment resolver (`DipCommitmentProofRes`). -/
structure DipCommitmentProofRes where
  proof : ProofData
  deriving DecidableEq, Repr

/-- Embedding of `generateDipCommitmentProof` from
`src/src/stateProof/subjectDipCommitment.ts` (lines 43-60): a single
read-proof fetch of the keyed commitment entry, with no existence check
and no failure path. -/
def generateDipCommitmentProof (env : CommitmentEnv) (didUri : String)
    (providerBlockHash : Hash) (version : Nat) :
    Except DipError DipCommitmentProofRes :=
  .ok { proof := env.getReadProof
          [.commitmentKey (env.toChain didUri) version] providerBlockHash }

/-- The statement of claim C4's failure half over the embedding: whenever no
identity commitment of the requested version exists for the subject at the
given provider block, the resolver fails with `CommitmentNotFound`. -/
def commitmentClaimFailsWhenAbsent : Prop :=
  ∀ (env : CommitmentEnv) (didUri : String) (providerBlockHash : Hash) (version : Nat),
    env.commitments (env.toChain didUri) version providerBlockHash = none →
    generateDipCommitmentProof env didUri providerBlockHash version =
      .error .commitmentNotFound

/-- A concrete commitment environment in which no subject has any identity
commitment at any version or block. -/
def commitmentEnvEmpty : CommitmentEnv where
  toChain := fun did => did ++ ":chain"
  commitments := fun _ _ _ => none
  getReadProof := fun keys at_ => at_ * 10 + keys.length

/-! ### Cross-chain authorizer
(`src/unnamed/part_010`, the `timeBoundDidSignature.ts` extension)

`generateTimeBoundDipDidSignature` resolves the expiry block, the genesis
hash and the subject's live identity details on the consumer chain, encodes
the 5-tuple `(call, identityDetails, submitterAddress, blockNumber,
genesis)` with `api.createType(...).toU8a()`, and hands the bytes to the
caller's signing callback. -/

/-- A call on the consumer chain.  `post msg` is the consumer test chain's
`postIt.post(msg)` extrinsic used by the spec's fixtures; `raw` stands for
any other call as its SCALE bytes. -/
inductive ConsumerCall where
  | post (msg : String)
  | raw (palletIndex callIndex : Nat) (args : List Nat)
  deriving DecidableEq, Repr

/-- The identity-details value placed in the signature payload: either the
record found in `dipConsumer.identityEntries` (a nonce under the default
`Option<u128>` runtime type) or the absent sentinel
`api.createType(actualIdentityDetailsRuntimeType, null)`, tagged with the
runtime type it was constructed from. -/
inductive IdentityDetailsValue where
  | stored (nonce : Nat)
  | absentSentinel (runtimeType : String)
  deriving DecidableEq, Repr

/-- The `defaultValues` constant of the authorizer module. -/
structure SignerDefaultValues where
  accountIdRuntimeType : String
  blockNumberRuntimeType : String
  identityDetailsRuntimeType : String
  validUntilOffset : Nat

/-- Embedding of `defaultValues` from `src/unnamed/part_010` (lines 23-28). -/
def defaultValues : SignerDefaultValues where
  accountIdRuntimeType := "AccountId"
  blockNumberRuntimeType := "u64"
  identityDetailsRuntimeType := "Option<u128>"
  validUntilOffset := 50

/-- JavaScript template-literal interpolation of a value that may be
`undefined`: interpolating `undefined` produces the literal text
`undefined`. -/
def jsInterpolate : Option String → String
  | some s => s
  | none => "undefined"

/-- The type string handed to `api.createType` when encoding the signature
payload (line 111 of `part_010`).  The account-id and block-number slots
apply their defaults via `??`, but the identity-details slot interpolates
the raw optional parameter — not the `actualIdentityDetailsRuntimeType`
computed four lines earlier — so an omitted override interpolates as the
text `undefined`. -/
def signaturePayloadTypeString (identityDetailsRuntimeType accountIdRuntimeType
    blockNumberRuntimeType : Option String) : String :=
  "(Call, " ++ jsInterpolate identityDetailsRuntimeType ++ ", " ++
    accountIdRuntimeType.getD defaultValues.accountIdRuntimeType ++ ", " ++
    blockNumberRuntimeType.getD defaultValues.blockNumberRuntimeType ++ ", Hash)"

/-- The canonical signature payload tuple, in the order of line 112 of
`part_010`: `[call, identityDetails, submitterAddress, blockNumber,
genesis]`. -/
structure SignatureTuple where
  call : ConsumerCall
  identityDetails : IdentityDetailsValue
  submitterAddress : String
  blockNumber : Nat
  genesis : Hash
  deriving DecidableEq, Repr

/-- The value returned by the caller's signing callback. -/
structure SignResult where
  signature : List Nat
  keyType : String
  deriving DecidableEq, Repr

/-- Environment of the cross-chain authorizer:
`systemNumber` is `api.query.system.number()` (the consumer chain's block
height at generation time);
`systemBlockHash n` is `api.query.system.blockHash(n)`;
`identityEntries subject` is `api.query.dipConsumer.identityEntries(...)`;
`toChain` is the subject's chain encoding from `@kiltprotocol/did`;
`encodeTuple ty t` is `api.createType(ty, t).toU8a()`, the consumer type
registry's encoding of the payload tuple;
`sign bytes` is the caller-supplied async signing callback, which may
reject. -/
structure ConsumerEnv where
  systemNumber : Nat
  systemBlockHash : Nat → Hash
  identityEntries : String → Option Nat
  toChain : String → String
  encodeTuple : String → SignatureTuple → List Nat
  sign : List Nat → Except String SignResult

/-- The caller-facing options of the authorizer
(`TimeBoundDidSignatureConsumerOpts`). -/
structure TimeBoundDidSignatureConsumerOpts where
  accountIdRuntimeType : Option String
  blockNumberRuntimeType : Option String
  call : ConsumerCall
  genesisHash : Option Hash
  identityDetailsRuntimeType : Option String
  submitterAddress : String
  validUntil : Option Nat

/-- The authorizer's result (`TimeBoundDidSignatureRes`). -/
structure TimeBoundDidSignatureRes where
  signature : List Nat
  type : String
  validUntil : Nat
  deriving DecidableEq, Repr

/-- Expiry resolution (lines 98-102 of `part_010`): the explicit
`validUntil` if provided, otherwise the consumer chain's current block
height plus `defaultValues.validUntilOffset`. -/
def resolvedValidUntil (env : ConsumerEnv) (validUntil : Option Nat) : Nat :=
  validUntil.getD (env.systemNumber + defaultValues.validUntilOffset)

/-- Genesis resolution (line 103): the explicit hash if provided, otherwise
`api.query.system.blockHash(0)`. -/
def resolvedGenesis (env : ConsumerEnv) (genesisHash : Option Hash) : Hash :=
  genesisHash.getD (env.systemBlockHash 0)

/-- Identity-details resolution (lines 104-107): the subject's live record
if one exists, otherwise the absent sentinel constructed from
`actualIdentityDetailsRuntimeType` (here the default is applied). -/
def resolvedIdentityDetails (env : ConsumerEnv) (didUri : String)
    (identityDetailsRuntimeType : Option String) : IdentityDetailsValue :=
  match env.identityEntries (env.toChain didUri) with
  | some nonce => .stored nonce
  | none => .absentSentinel
      (identityDetailsRuntimeType.getD defaultValues.identityDetailsRuntimeType)

/-- The payload tuple assembled at line 112 of `part_010`. -/
def signatureTupleOf (env : ConsumerEnv) (didUri : String)
    (opts : TimeBoundDidSignatureConsumerOpts) : SignatureTuple where
  call := opts.call
  identityDetails := resolvedIdentityDetails env didUri opts.identityDetailsRuntimeType
  submitterAddress := opts.submitterAddress
  blockNumber := resolvedValidUntil env opts.validUntil
  genesis := resolvedGenesis env opts.genesisHash

/-- The payload bytes handed to the signing callback (lines 109-114 of
`part_010`): the registry encoding of the payload tuple under the computed
type string. -/
def signaturePayloadOf (env : ConsumerEnv) (didUri : String)
    (opts : TimeBoundDidSignatureConsumerOpts) : List Nat :=
  env.encodeTuple
    (signaturePayloadTypeString opts.identityDetailsRuntimeType
      opts.accountIdRuntimeType opts.blockNumberRuntimeType)
    (signatureTupleOf env didUri opts)

/-- Embedding of `generateTimeBoundDipDidSignature` from
`src/unnamed/part_010` (lines 84-125): resolve, encode, sign, and return
the signature together with the resolved expiry block. -/
def generateTimeBoundDipDidSignature (env : ConsumerEnv) (didUri : String)
    (opts : TimeBoundDidSignatureConsumerOpts) :
    Except DipError TimeBoundDidSignatureRes :=
  let blockNumber := resolvedValidUntil env opts.validUntil
  match env.sign (signaturePayloadOf env didUri opts) with
  | .error msg => .error (.signingFailure msg)
  | .ok s => .ok { signature := s.signature, type := s.keyType, validUntil := blockNumber }

/-! ### SCALE model of the consumer registry's payload encoding

The wire codec is an external collaborator (`@polkadot/types`); the spec
fixes it only at its interface.  For the byte-level claims the registry
encoding of the payload tuple is modelled by the documented SCALE format:
each tuple component's encoding concatenated in order, strings as a
compact-encoded byte length followed by the bytes, `Option<u128>` as a
presence byte followed by 16 little-endian bytes, `u64` and `Hash` as 8
and 32 little-endian bytes.  `utf8Bytes` is exact for the ASCII strings
the fixtures use. -/

/-- The `count` little-endian base-256 digits of `n`. -/
def leBytes (count n : Nat) : List Nat :=
  (List.range count).map fun i => n / 256 ^ i % 256

/-- SCALE compact encoding of a length. -/
def scaleCompact (n : Nat) : List Nat :=
  if n < 64 then [4 * n]
  else if n < 16384 then leBytes 2 (4 * n + 1)
  else if n < 1073741824 then leBytes 4 (4 * n + 2)
  else (((Nat.log 256 n + 1) - 4) * 4 + 3) :: leBytes (Nat.log 256 n + 1) n

/-- The bytes of an ASCII string. -/
def utf8Bytes (s : String) : List Nat := s.toList.map Char.toNat

/-- SCALE encoding of a string: compact byte length, then the bytes. -/
def scaleEncodeString (s : String) : List Nat :=
  scaleCompact (utf8Bytes s).length ++ utf8Bytes s

/-- The consumer test chain's registry indices for `postIt.post`
(representative concrete values; the proofs only use that both fixture
calls share them). -/
def postItPalletIndex : Nat := 40

/-- The call index of `post` within the `postIt` pallet. -/
def postItPostCallIndex : Nat := 0

/-- SCALE encoding of a consumer call: pallet index byte, call index byte,
then the SCALE-encoded arguments. -/
def scaleEncodeCall : ConsumerCall → List Nat
  | .post msg => postItPalletIndex :: postItPostCallIndex :: scaleEncodeString msg
  | .raw palletIndex callIndex args => palletIndex :: callIndex :: args

/-- SCALE encoding of the identity details under the default
`Option<u128>` runtime type: `[0]` when absent, a presence byte followed
by 16 little-endian bytes of the nonce when present. -/
def scaleEncodeIdentityDetails : IdentityDetailsValue → List Nat
  | .absentSentinel _ => [0]
  | .stored nonce => 1 :: leBytes 16 nonce

/-- The `AccountId` bytes of a submitter address (the SS58 decoding is
modelled by the address's own bytes, which is injective as the decoding
is). -/
def scaleEncodeAccountId (address : String) : List Nat := utf8Bytes address

/-- SCALE encoding of a `u64` block number. -/
def scaleEncodeU64 (n : Nat) : List Nat := leBytes 8 n

/-- SCALE encoding of a 32-byte hash. -/
def scaleEncodeHash (h : Hash) : List Nat := leBytes 32 h

/-- The registry encoding of the whole payload tuple: the concatenation of
its components' encodings in tuple order. -/
def scaleEncodeTuple (t : SignatureTuple) : List Nat :=
  scaleEncodeCall t.call ++ scaleEncodeIdentityDetails t.identityDetails ++
    scaleEncodeAccountId t.submitterAddress ++ scaleEncodeU64 t.blockNumber ++
    scaleEncodeHash t.genesis

/-- A concrete consumer environment at block height 100, with no live
identity record for any subject, using the SCALE payload encoding and a
signing callback that succeeds, echoing the payload. -/
def consumerEnvA : ConsumerEnv where
  systemNumber := 100
  systemBlockHash := fun n => n + 1000
  identityEntries := fun _ => none
  toChain := fun did => did
  encodeTuple := fun _ t => scaleEncodeTuple t
  sign := fun payload => .ok { signature := payload, keyType := "sr25519" }

/-- Baseline authorizer options used by the concrete witnesses: explicit
well-formed runtime types, explicit genesis, no explicit expiry. -/
def consumerOptsA : TimeBoundDidSignatureConsumerOpts where
  accountIdRuntimeType := some "AccountId"
  blockNumberRuntimeType := some "u64"
  call := .post "Hello, world!"
  genesisHash := some 77
  identityDetailsRuntimeType := some "Option<u128>"
  submitterAddress := "4submitter"
  validUntil := none

/-- Authorizer options with an explicit expiry block far in the past
relative to `consumerEnvA`'s height 100. -/
def consumerOptsPast : TimeBoundDidSignatureConsumerOpts :=
  { consumerOptsA with validUntil := some 3 }

/-! ### Disclosure builder (`src/src/dipProof/subjectIdentity.ts`)

`generateDipIdentityProof` delegates to the provider runtime call
`dipProvider.generateProof`, stripping the leading `#` from each
verification-method id, and turns an `Err` result into an `Error` carrying
the provider error's metadata docs (`providerApi.findError(...).docs`). -/

/-- The request record passed to `dipProvider.generateProof`. -/
structure DisclosureRequest where
  identifier : String
  version : Nat
  proofKeys : List String
  accounts : List String
  shouldIncludeWeb3Name : Bool
  deriving DecidableEq, Repr

/-- The blinded and revealed Merkle leaves of a disclosure proof (opaque
codec values). -/
structure DipIdentityProofLeaves where
  blinded : Nat
  revealed : Nat
  deriving DecidableEq, Repr

/-- Result of the disclosure builder (`DipIdentityProofRes`). -/
structure DipIdentityProofRes where
  proof : DipIdentityProofLeaves
  root : Hash
  deriving DecidableEq, Repr

/-- Environment of the disclosure builder:
`toChain` as before; `generateProof` is the provider chain's runtime call
`dipProvider.generateProof`, returning a `Result` whose error side is an
opaque error code; `findErrorDocs code` is
`providerApi.findError(code).docs.join("\n")`. -/
structure DisclosureEnv where
  toChain : String → String
  generateProof : DisclosureRequest → Except Nat DipIdentityProofRes
  findErrorDocs : Nat → String

/-- Embedding of `generateDipIdentityProof` from
`src/src/dipProof/subjectIdentity.ts` (lines 57-78).  (The `part_013`
utils revision is the same computation with the request field named `keys`
instead of `proofKeys`.) -/
def generateDipIdentityProof (env : DisclosureEnv) (didUri : String)
    (keyIds : List String) (includeWeb3Name : Bool) (linkedAccounts : List String)
    (version : Nat) : Except DipError DipIdentityProofRes :=
  match env.generateProof
      { identifier := env.toChain didUri
        version := version
        proofKeys := keyIds.map (fun keyId => keyId.drop 1)
        accounts := linkedAccounts
        shouldIncludeWeb3Name := includeWeb3Name } with
  | .error e => .error (.disclosureError (env.findErrorDocs e))
  | .ok res => .ok res

/-! ### Proof assemblers (`src/src/sibling.ts` and the utils-era
`generateDipAuthorizedTxForSibling`)

Both orchestrators run their legs strictly in sequence with `await`, so a
rejection of any leg aborts the whole composition with that rejection; the
`Except` monad mirrors this. -/

/-- Environment of `generateDipSiblingBaseProof`:
the three leg environments plus
`relayBestNumberFinalized` = `relayApi.derive.chain.bestNumberFinalized()`
(the module-level `defaultValues.relayBlockHeight`). -/
structure SiblingEnv where
  relay : RelayAnchorEnv
  commitment : CommitmentEnv
  disclosure : DisclosureEnv
  relayBestNumberFinalized : Nat

/-- Input of `generateDipSiblingBaseProof` (`DipSiblingBaseProofInput`). -/
structure DipSiblingBaseProofInput where
  didUri : String
  keyIds : List String
  proofVersion : Nat
  relayBlockHeight : Option Nat
  includeWeb3Name : Option Bool
  linkedAccounts : Option (List String)

/-- Result of `generateDipSiblingBaseProof` (`DipSiblingBaseProofRes`). -/
structure DipSiblingBaseProofRes where
  providerHeadProof : ProviderStateRootProofResV2
  dipCommitmentProof : DipCommitmentProofRes
  dipProof : DipIdentityProofRes
  proofVersion : Nat
  deriving DecidableEq, Repr

/-- Embedding of `generateDipSiblingBaseProof` from `src/src/sibling.ts`
(lines 252-293): default the relay block height to the latest finalized
relay block, then run anchor, commitment and disclosure legs in sequence,
the commitment being read at the provider block hash recorded in the
anchor. -/
def generateDipSiblingBaseProof (env : SiblingEnv) (input : DipSiblingBaseProofInput) :
    Except DipError DipSiblingBaseProofRes := do
  let actualRelayBlockHeight := input.relayBlockHeight.getD env.relayBestNumberFinalized
  let providerHeadProof ←
    generateProviderStateRootProofAtRelayBlock env.relay actualRelayBlockHeight
  let dipCommitmentProof ← generateDipCommitmentProof env.commitment input.didUri
      providerHeadProof.providerBlockHash input.proofVersion
  let dipProof ← generateDipIdentityProof env.disclosure input.didUri input.keyIds
      (input.includeWeb3Name.getD false) (input.linkedAccounts.getD []) input.proofVersion
  pure { providerHeadProof := providerHeadProof
         dipCommitmentProof := dipCommitmentProof
         dipProof := dipProof
         proofVersion := input.proofVersion }

/-- Environment of the utils-era anchor resolver of `part_013`
(provider-block-height first, optional):
`providerBlockHashAt n` is `providerApi.rpc.chain.getBlockHash(n)`;
`finalizedHeadHash` is `providerApi.rpc.chain.getFinalizedHead()`;
`headerNumberOf h` is `providerApi.rpc.chain.getHeader(h).number`;
`parachainIdAt h` is `providerApi.at(h).query.parachainInfo.parachainId()`;
`lastRelayChainBlockNumberAt h` is
`providerApi.at(h).query.parachainSystem.lastRelayChainBlockNumber()`;
`relayBlockHashAt n` is `relayApi.rpc.chain.getBlockHash(n)`;
`getReadProof` is `relayApi.rpc.state.getReadProof`. -/
structure UtilsAnchorEnv where
  providerBlockHashAt : Nat → Hash
  finalizedHeadHash : Hash
  headerNumberOf : Hash → Nat
  parachainIdAt : Hash → Nat
  lastRelayChainBlockNumberAt : Hash → Nat
  relayBlockHashAt : Nat → Hash
  getReadProof : List StorageKey → Hash → ProofData

/-- Result of the `part_013` anchor resolver. -/
structure ProviderStateRootProofResUtils where
  proof : ProofData
  providerBlockHeight : Nat
  relayBlockHeight : Nat
  deriving DecidableEq, Repr

/-- Embedding of `generateProviderStateRootProof` from `src/unnamed/part_013`
(lines 60-99): resolve the target provider block (defaulting to the latest
finalized head), read the relay parent it cites, and fetch the read proof
of the provider's keyed `paras.heads` entry at that relay block. -/
def generateProviderStateRootProofUtils (env : UtilsAnchorEnv)
    (providerBlockHeight : Option Nat) :
    Except DipError ProviderStateRootProofResUtils :=
  let resolved :=
    match providerBlockHeight with
    | some n => (n, env.providerBlockHashAt n)
    | none => (env.headerNumberOf env.finalizedHeadHash, env.finalizedHeadHash)
  let providerBlockNumber := resolved.1
  let providerBlockHash := resolved.2
  let providerChainId := env.parachainIdAt providerBlockHash
  let relayParentBlockNumber := env.lastRelayChainBlockNumberAt providerBlockHash
  let relayParentBlockHash := env.relayBlockHashAt relayParentBlockNumber
  let proof := env.getReadProof [.headsKey providerChainId] relayParentBlockHash
  .ok { proof := proof
        providerBlockHeight := providerBlockNumber
        relayBlockHeight := relayParentBlockNumber }

/-- A value inside the consumer-side proof object handed to
`api.tx.dipConsumer.dispatchAs` (`u8aToHex` of signature bytes is modelled
by the bytes themselves). -/
inductive JsValue where
  | num (n : Nat)
  | str (s : String)
  | arr (elems : List Nat)
  | obj (fields : List (String × JsValue))

/-- The extrinsic produced for the consumer chain:
`api.tx.dipConsumer.dispatchAs(subject, proofArgument, call)`. -/
structure SubmittableExtrinsic where
  subject : String
  proofArgument : JsValue
  call : ConsumerCall

/-- Environment of the utils-era `generateDipAuthorizedTxForSibling`: the
four leg environments, the provider's `getBlockHash` used to locate the
commitment block, and the consumer-side subject encoding. -/
structure SiblingTxEnv where
  anchor : UtilsAnchorEnv
  providerBlockHashAt : Nat → Hash
  commitment : CommitmentEnv
  disclosure : DisclosureEnv
  consumer : ConsumerEnv
  toChain : String → String

/-- Input of the utils-era `generateDipAuthorizedTxForSibling`
(`DipSiblingProofInput`). -/
structure DipSiblingProofInput where
  call : ConsumerCall
  didUri : String
  keyIds : List String
  proofVersion : Nat
  submitterAddress : String
  validUntil : Option Nat
  genesisHash : Option Hash
  providerBlockHeight : Option Nat
  accountIdRuntimeType : Option String
  blockNumberRuntimeType : Option String
  identityDetailsRuntimeType : Option String
  includeWeb3Name : Option Bool
  linkedAccounts : Option (List String)

/-- The authorizer options assembled by `generateDipAuthorizedTxForSibling`
for its signature leg: the runtime-type overrides are defaulted at this
level before being passed down. -/
def siblingTxSignatureOpts (input : DipSiblingProofInput) :
    TimeBoundDidSignatureConsumerOpts where
  accountIdRuntimeType :=
    some (input.accountIdRuntimeType.getD defaultValues.accountIdRuntimeType)
  blockNumberRuntimeType :=
    some (input.blockNumberRuntimeType.getD defaultValues.blockNumberRuntimeType)
  call := input.call
  genesisHash := input.genesisHash
  identityDetailsRuntimeType :=
    some (input.identityDetailsRuntimeType.getD defaultValues.identityDetailsRuntimeType)
  submitterAddress := input.submitterAddress
  validUntil := input.validUntil

/-- Embedding of the utils-era `generateDipAuthorizedTxForSibling`
(`src/src/sibling.ts` lines 79-179, with the `part_013` utils legs): run
anchor, commitment, disclosure and DID-signature legs in sequence and
assemble the version-tagged `dispatchAs` extrinsic. -/
def generateDipAuthorizedTxForSibling (env : SiblingTxEnv)
    (input : DipSiblingProofInput) : Except DipError SubmittableExtrinsic := do
  let headProof ← generateProviderStateRootProofUtils env.anchor input.providerBlockHeight
  let dipRootProofBlockHash := env.providerBlockHashAt headProof.providerBlockHeight
  let commitmentProof ← generateDipCommitmentProof env.commitment input.didUri
      dipRootProofBlockHash input.proofVersion
  let identityProof ← generateDipIdentityProof env.disclosure input.didUri input.keyIds
      (input.includeWeb3Name.getD false) (input.linkedAccounts.getD [])
      input.proofVersion
  let didSignature ← generateTimeBoundDipDidSignature env.consumer input.didUri
      (siblingTxSignatureOpts input)
  pure { subject := env.toChain input.didUri
         proofArgument := .obj [("V" ++ toString input.proofVersion, .obj
           [("providerHeadProof", .obj
              [("relayBlockNumber", .num headProof.relayBlockHeight),
               ("proof", .num headProof.proof)]),
            ("dipCommitmentProof", .num commitmentProof.proof),
            ("dipProof", .obj
              [("blinded", .num identityProof.proof.blinded),
               ("revealed", .num identityProof.proof.revealed)]),
            ("signature", .obj
              [("signature", .obj [(didSignature.type, .arr didSignature.signature)]),
               ("validUntil", .num didSignature.validUntil)])])]
         call := input.call }

/-! ### Envelope extension (`generateDipSubmittableExtrinsic`,
`src/src/sibling.ts` lines 316-343) -/

/-- The base-field entries of the version-tagged proof object, in source
order (`providerHeadProof`, `dipCommitmentProof`, `dipProof`). -/
def baseProofEntries (baseDipProof : DipSiblingBaseProofRes) :
    List (String × JsValue) :=
  [("providerHeadProof", .obj
      [("relayBlockNumber", .num baseDipProof.providerHeadProof.relayBlockHeight),
       ("proof", .num baseDipProof.providerHeadProof.proof)]),
   ("dipCommitmentProof", .num baseDipProof.dipCommitmentProof.proof),
   ("dipProof", .obj
      [("blinded", .num baseDipProof.dipProof.proof.blinded),
       ("revealed", .num baseDipProof.dipProof.proof.revealed)])]

/-- JavaScript object-literal semantics: properties are assigned left to
right, so a key resolves to its last binding in the entry list. -/
def jsLookup (fields : List (String × JsValue)) (key : String) : Option JsValue :=
  fields.reverse.lookup key

/-- Embedding of `generateDipSubmittableExtrinsic` from `src/src/sibling.ts`
(lines 316-343): the version-tagged object lists the three base proof
fields first and then spreads `additionalProofElements`, so extension
entries come after the base entries.  (The `part_006` revision spreads the
base record's fields instead of rebuilding them; the resulting entry order
is the same.) -/
def generateDipSubmittableExtrinsic (toChain : String → String)
    (additionalProofElements : List (String × JsValue))
    (baseDipProof : DipSiblingBaseProofRes) (call : ConsumerCall)
    (didUri : String) : SubmittableExtrinsic where
  subject := toChain didUri
  proofArgument := .obj [("V" ++ toString baseDipProof.proofVersion,
    .obj (baseProofEntries baseDipProof ++ additionalProofElements))]
  call := call

/-! ### Concrete environments for the assembler witnesses -/

/-- A disclosure environment whose provider runtime call always succeeds. -/
def disclosureEnvOk : DisclosureEnv where
  toChain := fun did => did
  generateProof := fun _ => .ok { proof := { blinded := 1, revealed := 2 }, root := 3 }
  findErrorDocs := fun code => "provider error " ++ toString code

/-- A sibling environment whose relay chain has no recorded head for the
provider parachain, so the anchor leg fails. -/
def siblingEnvHeadFail : SiblingEnv where
  relay := { relayAnchorEnvA with parasHeadsAt := fun _ _ => none }
  commitment := commitmentEnvEmpty
  disclosure := disclosureEnvOk
  relayBestNumberFinalized := 42

/-- A minimal base-proof input. -/
def siblingBaseInputA : DipSiblingBaseProofInput where
  didUri := "did:kilt:alice"
  keyIds := ["#key1"]
  proofVersion := 0
  relayBlockHeight := none
  includeWeb3Name := none
  linkedAccounts := none

/-- A consumer environment whose signing callback always rejects. -/
def consumerEnvSignFail : ConsumerEnv :=
  { consumerEnvA with sign := fun _ => .error "signer unavailable" }

/-- A concrete utils-era anchor environment. -/
def utilsAnchorEnvA : UtilsAnchorEnv where
  providerBlockHashAt := fun n => n + 11
  finalizedHeadHash := 60
  headerNumberOf := fun h => h
  parachainIdAt := fun _ => 2000
  lastRelayChainBlockNumberAt := fun h => h + 3
  relayBlockHashAt := fun n => n + 5
  getReadProof := fun keys at_ => at_ * 100 + keys.length

/-- A sibling-transaction environment whose only failing leg is the
signing callback. -/
def siblingTxEnvSignFail : SiblingTxEnv where
  anchor := utilsAnchorEnvA
  providerBlockHashAt := fun n => n + 11
  commitment := commitmentEnvEmpty
  disclosure := disclosureEnvOk
  consumer := consumerEnvSignFail
  toChain := fun did => did

/-- A minimal authorized-transaction input. -/
def siblingTxInputA : DipSiblingProofInput where
  call := .post "Hello, world!"
  didUri := "did:kilt:alice"
  keyIds := ["#key1"]
  proofVersion := 0
  submitterAddress := "4submitter"
  validUntil := none
  genesisHash := none
  providerBlockHeight := none
  accountIdRuntimeType := none
  blockNumberRuntimeType := none
  identityDetailsRuntimeType := none
  includeWeb3Name := none
  linkedAccounts := none

/-- A concrete base proof record for the envelope-extension witnesses. -/
def baseProofW : DipSiblingBaseProofRes where
  providerHeadProof := { proof := 7, relayBlockHash := 8, relayBlockHeight := 9,
                         providerBlockHash := 10, providerBlockHeight := 11 }
  dipCommitmentProof := { proof := 12 }
  dipProof := { proof := { blinded := 1, revealed := 2 }, root := 3 }
  proofVersion := 0

end DipSdk

namespace DipSdk

/-- C1: the utils-era anchor resolver fails with `AnchorNotProvable` exactly
when the target provider block height is at or beyond the latest finalized
provider block, and succeeds (returning an anchor, with no fallback and no
such error) whenever the target is strictly below it. -/
theorem anchor_notProvable_guard (env : AnchorEnv) (n : Nat) :
    (env.bestNumberFinalized ≤ n →
      generateProviderStateRootProof env n =
        .error (.anchorNotProvable n env.bestNumberFinalized)) ∧
    (n < env.bestNumberFinalized →
      generateProviderStateRootProof env n =
        .ok { proof := env.getReadProof [.headsKey env.providerParaId]
                         (env.relayBlockHash (anchorRelayHeight env n)),
              relayBlockHeight := anchorRelayHeight env n }) := by
  constructor
  · intro h
    simp only [generateProviderStateRootProof]
    rw [if_pos]
    omega
  · intro h
    simp only [generateProviderStateRootProof, anchorRelayHeight]
    rw [if_neg]
    simp only [not_not]
    omega

/-- Witness for C1: in the concrete environment `anchorEnvA` (latest
finalized block 5), height 7 is rejected with `AnchorNotProvable` and
height 2 is resolved. -/
theorem anchor_notProvable_guard_witness :
    generateProviderStateRootProof anchorEnvA 7 = .error (.anchorNotProvable 7 5) ∧
    generateProviderStateRootProof anchorEnvA 2 =
      .ok { proof := 3801, relayBlockHeight := 31 } := by
  refine ⟨?_, ?_⟩
  · have h := (anchor_notProvable_guard anchorEnvA 7).1 (by decide)
    simpa [anchorEnvA] using h
  · have h := (anchor_notProvable_guard anchorEnvA 2).2 (by decide)
    simpa [anchorEnvA, anchorRelayHeight] using h

/-- C2 counterexample: the claim is false because the utils-era anchor
result does not identify the target provider block.  In `anchorEnvB` every
provider block cites the same relay parent, so the resolutions for target
heights 0 and 1 return the very same record; no reading of the result can
therefore recover the target height, refuting the claim's final conjunct
("the returned anchor's providerBlockHeight/Hash match N"). -/
theorem anchor_result_forgets_target_block : ¬ anchorClaimWithIdentification := by
  rintro ⟨-, f, hf⟩
  have h0 : f { proof := 0, relayBlockHeight := 0 } = 0 :=
    hf anchorEnvB 0 { proof := 0, relayBlockHeight := 0 } (by rfl)
  have h1 : f { proof := 0, relayBlockHeight := 0 } = 1 :=
    hf anchorEnvB 1 { proof := 0, relayBlockHeight := 0 } (by rfl)
  omega

/-- C2 amended: for every target provider block `N` strictly below the
latest finalized provider block, the utils-era resolver succeeds, anchors
to the relay parent block cited by the next provider block `N+1`
(`parachainSystem.lastRelayChainBlockNumber` read at block `N+1`), and
fetches the `paras.heads` read proof at that relay block's hash; the
returned record carries that proof and relay block height only, and does
not identify provider block `N`. -/
theorem anchor_success_shape (env : AnchorEnv) (n : Nat)
    (h : n < env.bestNumberFinalized) :
    generateProviderStateRootProof env n =
      .ok { proof := env.getReadProof [.headsKey env.providerParaId]
                       (env.relayBlockHash
                         (env.lastRelayChainBlockNumber (env.providerBlockHash (n + 1)))),
            relayBlockHeight :=
              env.lastRelayChainBlockNumber (env.providerBlockHash (n + 1)) } := by
  simp only [generateProviderStateRootProof]
  rw [if_neg]
  simp only [not_not]
  omega

/-- Witness for the amended C2 theorem: resolving target height 2 in
`anchorEnvA` anchors to relay block 31, the relay parent cited by provider
block 3. -/
theorem anchor_success_shape_witness :
    generateProviderStateRootProof anchorEnvA 2 =
      .ok { proof := 3801, relayBlockHeight := 31 } := by
  have h := anchor_success_shape anchorEnvA 2 (by decide)
  simpa [anchorEnvA] using h

/-- C3: the current-tree anchor resolver requests the read proof with the
argument-less `paras.heads.key()`, not the entry keyed by the provider's
registered parachain id.  Concretely, in `relayAnchorEnvA` — whose
read-proof oracle answers 1 exactly on the keyed entry of para id 2000 —
the resolver succeeds at relay height 10 yet its proof is 0, and in
general every successful resolution's proof is the answer to the
`headsKeyNoArg` request, a key distinct from `headsKey paraId`.  (The
utils-era resolver of `part_008` does pass the para id, as C1/C2's
success-shape theorems show.) -/
theorem readProof_key_missing_paraId :
    (∀ (env : RelayAnchorEnv) (n : Nat) (r : ProviderStateRootProofResV2),
      generateProviderStateRootProofAtRelayBlock env n = .ok r →
        r.proof = env.getReadProof [.headsKeyNoArg] (env.relayBlockHashAt n) ∧
        (StorageKey.headsKeyNoArg : StorageKey) ≠ .headsKey env.providerParachainId) ∧
    (generateProviderStateRootProofAtRelayBlock relayAnchorEnvA 10).map
        ProviderStateRootProofResV2.proof = .ok 0 := by
  refine ⟨?_, by rfl⟩
  intro env n r h
  refine ⟨?_, by simp⟩
  simp only [generateProviderStateRootProofAtRelayBlock] at h
  cases hq : env.parasHeadsAt (env.relayBlockHashAt n) env.providerParachainId with
  | none => rw [hq] at h; exact absurd h (by simp)
  | some blockHash =>
    rw [hq] at h
    simp only [Except.ok.injEq] at h
    rw [← h]

/-- Witness for C3: applying the theorem to the concrete successful
resolution at relay height 10 in `relayAnchorEnvA`. -/
theorem readProof_key_missing_paraId_witness :
    (3801 : ProofData) = relayAnchorEnvA.getReadProof [.headsKeyNoArg]
        (relayAnchorEnvA.relayBlockHashAt 10) ∨
    ((generateProviderStateRootProofAtRelayBlock relayAnchorEnvA 10).map
        ProviderStateRootProofResV2.proof = .ok 0 ∧
      (StorageKey.headsKeyNoArg : StorageKey) ≠ .headsKey relayAnchorEnvA.providerParachainId) := by
  refine Or.inr ⟨readProof_key_missing_paraId.2, ?_⟩
  exact (readProof_key_missing_paraId.1 relayAnchorEnvA 10
    { proof := 0, relayBlockHash := 110, relayBlockHeight := 10,
      providerBlockHash := 111, providerBlockHeight := 113 } (by rfl)).2

/-- C4 counterexample: the commitment resolver never fails.  In
`commitmentEnvEmpty` no commitment exists for any subject, yet resolving
version 0 for a concrete subject at block 4 returns a read proof instead
of `CommitmentNotFound`, refuting the claim's failure half. -/
theorem commitment_never_fails : ¬ commitmentClaimFailsWhenAbsent := by
  intro h
  have hc := h commitmentEnvEmpty "did:kilt:alice" 4 0 rfl
  exact absurd hc (by simp [generateDipCommitmentProof])

/-- C4 amended: the commitment resolver performs no existence check and has
no failure path; for every subject, provider block hash and version it
returns the storage read proof of the `dipProvider.identityCommitments`
entry keyed by the chain-encoded subject and exactly the requested version
(never a different one), fetched at the given provider block hash. -/
theorem commitment_proof_shape (env : CommitmentEnv) (didUri : String)
    (providerBlockHash : Hash) (version : Nat) :
    generateDipCommitmentProof env didUri providerBlockHash version =
      .ok { proof := env.getReadProof
              [.commitmentKey (env.toChain didUri) version] providerBlockHash } := rfl

/-- C5: with the identity-details override omitted, the payload type string
interpolates the raw `undefined` parameter instead of the documented
default `Option<u128>`, so the identity-details slot of the encoding is not
given its default runtime type (first two conjuncts).  The rest of the
claim does hold: with no live identity record the tuple carries the absent
sentinel built from the defaulted runtime type, and the signed bytes are
the registry encoding of exactly the 5-tuple under that type string. -/
theorem identityDetails_type_not_defaulted :
    signaturePayloadTypeString none none none =
      "(Call, undefined, AccountId, u64, Hash)" ∧
    signaturePayloadTypeString (some "Option<u128>") none none =
      "(Call, Option<u128>, AccountId, u64, Hash)" ∧
    (∀ (env : ConsumerEnv) (didUri : String) (opts : TimeBoundDidSignatureConsumerOpts),
      env.identityEntries (env.toChain didUri) = none →
        (signatureTupleOf env didUri opts).identityDetails =
          .absentSentinel (opts.identityDetailsRuntimeType.getD
            defaultValues.identityDetailsRuntimeType)) ∧
    (∀ (env : ConsumerEnv) (didUri : String) (opts : TimeBoundDidSignatureConsumerOpts),
      signaturePayloadOf env didUri opts =
        env.encodeTuple
          (signaturePayloadTypeString opts.identityDetailsRuntimeType
            opts.accountIdRuntimeType opts.blockNumberRuntimeType)
          (signatureTupleOf env didUri opts)) := by
  refine ⟨rfl, rfl, ?_, fun _ _ _ => rfl⟩
  intro env didUri opts h
  simp [signatureTupleOf, resolvedIdentityDetails, h]

/-- Witness for C5: in `consumerEnvA` (no live identity records) the
resolved identity details are the absent sentinel of the default
`Option<u128>` type even though the type-string slot says `undefined`. -/
theorem identityDetails_type_not_defaulted_witness :
    (signatureTupleOf consumerEnvA "did:kilt:alice"
        { consumerOptsA with identityDetailsRuntimeType := none }).identityDetails =
      .absentSentinel "Option<u128>" := by
  have h := identityDetails_type_not_defaulted.2.2.1 consumerEnvA "did:kilt:alice"
    { consumerOptsA with identityDetailsRuntimeType := none } rfl
  simpa using h

/-- C6: the expiry block resolves to the explicit `validUntil` when one is
provided and to the consumer chain's current height plus the fixed offset
50 otherwise, and a successful generation returns exactly the resolved
value. -/
theorem expiry_resolution (env : ConsumerEnv) (didUri : String)
    (opts : TimeBoundDidSignatureConsumerOpts) :
    (opts.validUntil = none →
      resolvedValidUntil env opts.validUntil = env.systemNumber + 50) ∧
    (∀ v, opts.validUntil = some v → resolvedValidUntil env opts.validUntil = v) ∧
    (∀ res, generateTimeBoundDipDidSignature env didUri opts = .ok res →
      res.validUntil = resolvedValidUntil env opts.validUntil) := by
  refine ⟨?_, ?_, ?_⟩
  · intro h
    simp [resolvedValidUntil, h, defaultValues]
  · intro v h
    simp [resolvedValidUntil, h]
  · intro res h
    simp only [generateTimeBoundDipDidSignature] at h
    cases hs : env.sign (signaturePayloadOf env didUri opts) with
    | error m => rw [hs] at h; exact absurd h (by simp)
    | ok s => rw [hs] at h; simp only [Except.ok.injEq] at h; rw [← h]

/-- Witness for C6: in `consumerEnvA` (height 100) the defaulted expiry is
150, and an explicit expiry of 7 is used verbatim. -/
theorem expiry_resolution_witness :
    resolvedValidUntil consumerEnvA consumerOptsA.validUntil = 150 ∧
    resolvedValidUntil consumerEnvA (some 7) = 7 := by
  constructor
  · have h := (expiry_resolution consumerEnvA "did:kilt:alice" consumerOptsA).1 rfl
    simpa [consumerEnvA] using h
  · exact (expiry_resolution consumerEnvA "did:kilt:alice"
      { consumerOptsA with validUntil := some 7 }).2.1 7 rfl

/-- C7 counterexample: a signature is produced with the explicit expiry
block 3 even though the consumer chain's height at generation time is 100,
so the returned `validUntil` is not `≥` the generation-time height. -/
theorem past_expiry_signed :
    ((generateTimeBoundDipDidSignature consumerEnvA "did:kilt:alice"
        consumerOptsPast).map TimeBoundDidSignatureRes.validUntil = .ok 3) ∧
    ¬ (consumerEnvA.systemNumber ≤ 3) :=
  ⟨rfl, by decide⟩

/-- C7 amended: the payload tuple's block-number slot carries the literal
resolved expiry — the same value returned alongside the signature — and
when `validUntil` is omitted the resolved expiry is `≥` the generation-time
height; an explicitly provided `validUntil` is signed and returned as-is,
even when it is already in the past. -/
theorem expiry_literal_in_payload (env : ConsumerEnv) (didUri : String)
    (opts : TimeBoundDidSignatureConsumerOpts) :
    (signatureTupleOf env didUri opts).blockNumber =
      resolvedValidUntil env opts.validUntil ∧
    (opts.validUntil = none →
      env.systemNumber ≤ resolvedValidUntil env opts.validUntil) ∧
    (∀ res, generateTimeBoundDipDidSignature env didUri opts = .ok res →
      res.validUntil = (signatureTupleOf env didUri opts).blockNumber) := by
  refine ⟨rfl, ?_, ?_⟩
  · intro h
    simp [resolvedValidUntil, h, defaultValues]
  · intro res h
    simp only [generateTimeBoundDipDidSignature] at h
    cases hs : env.sign (signaturePayloadOf env didUri opts) with
    | error m => rw [hs] at h; exact absurd h (by simp)
    | ok s =>
      rw [hs] at h
      simp only [Except.ok.injEq] at h
      rw [← h]
      rfl

/-- Witness for the amended C7 theorem: with no explicit expiry in
`consumerEnvA`, the payload tuple encodes 150 = 100 + 50 ≥ 100. -/
theorem expiry_literal_in_payload_witness :
    (signatureTupleOf consumerEnvA "did:kilt:alice" consumerOptsA).blockNumber = 150 ∧
    consumerEnvA.systemNumber ≤
      resolvedValidUntil consumerEnvA consumerOptsA.validUntil := by
  constructor
  · have h := (expiry_literal_in_payload consumerEnvA "did:kilt:alice" consumerOptsA).1
    simp only [h]
    rfl
  · exact (expiry_literal_in_payload consumerEnvA "did:kilt:alice" consumerOptsA).2.1 rfl

/-- C8: holding the identity details, submitter, expiry and genesis fixed
and changing only the target operation from `post("Hello, world!")` to
`post("Goodbye")` changes the encoded signature payload bytes, for any
environment whose registry encoding is the SCALE payload encoding. -/
theorem payload_binds_operation (env : ConsumerEnv) (didUri : String)
    (opts : TimeBoundDidSignatureConsumerOpts)
    (henc : env.encodeTuple = fun _ t => scaleEncodeTuple t) :
    signaturePayloadOf env didUri { opts with call := .post "Hello, world!" } ≠
      signaturePayloadOf env didUri { opts with call := .post "Goodbye" } := by
  intro h
  simp only [signaturePayloadOf, henc, signatureTupleOf, scaleEncodeTuple] at h
  have hlen := congrArg List.length h
  simp only [List.length_append] at hlen
  have hA : (scaleEncodeCall (.post "Hello, world!")).length = 16 := by decide
  have hB : (scaleEncodeCall (.post "Goodbye")).length = 10 := by decide
  rw [hA, hB] at hlen
  omega

/-- Witness for C8: the two fixture payloads differ in `consumerEnvA`. -/
theorem payload_binds_operation_witness :
    signaturePayloadOf consumerEnvA "did:kilt:alice"
        { consumerOptsA with call := .post "Hello, world!" } ≠
      signaturePayloadOf consumerEnvA "did:kilt:alice"
        { consumerOptsA with call := .post "Goodbye" } :=
  payload_binds_operation consumerEnvA "did:kilt:alice" consumerOptsA rfl

/-- C9: both assemblers are fail-fast.  In order: a failing anchor leg
aborts `generateDipSiblingBaseProof` with exactly that error; with the
anchor leg succeeding, a failing disclosure leg aborts it with exactly that
error; with all legs succeeding, the full record of the three legs'
results is returned; the disclosure leg itself surfaces a provider `Err`
as an error carrying that provider error's docs; in the utils-era
`generateDipAuthorizedTxForSibling`, a failing disclosure leg aborts the
composition with exactly that error, and a rejecting signing callback
aborts it with that signing failure — no partial envelope is ever
produced since every abort returns an error and nothing else. -/
theorem firstError_propagation :
    (∀ (env : SiblingEnv) (input : DipSiblingBaseProofInput) (e : DipError),
      generateProviderStateRootProofAtRelayBlock env.relay
          (input.relayBlockHeight.getD env.relayBestNumberFinalized) = .error e →
        generateDipSiblingBaseProof env input = .error e) ∧
    (∀ (env : SiblingEnv) (input : DipSiblingBaseProofInput)
        (r₁ : ProviderStateRootProofResV2) (e : DipError),
      generateProviderStateRootProofAtRelayBlock env.relay
          (input.relayBlockHeight.getD env.relayBestNumberFinalized) = .ok r₁ →
      generateDipIdentityProof env.disclosure input.didUri input.keyIds
          (input.includeWeb3Name.getD false) (input.linkedAccounts.getD [])
          input.proofVersion = .error e →
        generateDipSiblingBaseProof env input = .error e) ∧
    (∀ (env : SiblingEnv) (input : DipSiblingBaseProofInput)
        (r₁ : ProviderStateRootProofResV2) (r₃ : DipIdentityProofRes),
      generateProviderStateRootProofAtRelayBlock env.relay
          (input.relayBlockHeight.getD env.relayBestNumberFinalized) = .ok r₁ →
      generateDipIdentityProof env.disclosure input.didUri input.keyIds
          (input.includeWeb3Name.getD false) (input.linkedAccounts.getD [])
          input.proofVersion = .ok r₃ →
        generateDipSiblingBaseProof env input = .ok
          { providerHeadProof := r₁
            dipCommitmentProof :=
              { proof := env.commitment.getReadProof
                  [.commitmentKey (env.commitment.toChain input.didUri) input.proofVersion]
                  r₁.providerBlockHash }
            dipProof := r₃
            proofVersion := input.proofVersion }) ∧
    (∀ (env : DisclosureEnv) (didUri : String) (keyIds : List String)
        (includeWeb3Name : Bool) (linkedAccounts : List String) (version : Nat)
        (code : Nat),
      env.generateProof
          { identifier := env.toChain didUri
            version := version
            proofKeys := keyIds.map (fun keyId => keyId.drop 1)
            accounts := linkedAccounts
            shouldIncludeWeb3Name := includeWeb3Name } = .error code →
        generateDipIdentityProof env didUri keyIds includeWeb3Name linkedAccounts version =
          .error (.disclosureError (env.findErrorDocs code))) ∧
    (∀ (env : SiblingTxEnv) (input : DipSiblingProofInput) (e : DipError),
      generateDipIdentityProof env.disclosure input.didUri input.keyIds
          (input.includeWeb3Name.getD false) (input.linkedAccounts.getD [])
          input.proofVersion = .error e →
        generateDipAuthorizedTxForSibling env input = .error e) ∧
    (∀ (env : SiblingTxEnv) (input : DipSiblingProofInput)
        (r₃ : DipIdentityProofRes) (msg : String),
      generateDipIdentityProof env.disclosure input.didUri input.keyIds
          (input.includeWeb3Name.getD false) (input.linkedAccounts.getD [])
          input.proofVersion = .ok r₃ →
      env.consumer.sign (signaturePayloadOf env.consumer input.didUri
          (siblingTxSignatureOpts input)) = .error msg →
        generateDipAuthorizedTxForSibling env input = .error (.signingFailure msg)) := by
  refine ⟨?_, ?_, ?_, ?_, ?_, ?_⟩
  · intro env input e h
    simp [generateDipSiblingBaseProof, h, Bind.bind, Except.bind]
  · intro env input r₁ e h₁ h₃
    simp [generateDipSiblingBaseProof, h₁, generateDipCommitmentProof, h₃,
      Bind.bind, Except.bind]
  · intro env input r₁ r₃ h₁ h₃
    simp [generateDipSiblingBaseProof, h₁, generateDipCommitmentProof, h₃,
      Bind.bind, Except.bind, Pure.pure, Except.pure]
  · intro env didUri keyIds includeWeb3Name linkedAccounts version code h
    simp [generateDipIdentityProof, h]
  · intro env input e h
    simp [generateDipAuthorizedTxForSibling, generateProviderStateRootProofUtils,
      generateDipCommitmentProof, h, Bind.bind, Except.bind]
  · intro env input r₃ msg h₃ hs
    simp [generateDipAuthorizedTxForSibling, generateProviderStateRootProofUtils,
      generateDipCommitmentProof, h₃, generateTimeBoundDipDidSignature, hs,
      Bind.bind, Except.bind]

/-- Witness for C9: with no recorded provider head the base-proof
composition aborts with the anchor leg's `headDataMissing`, and with a
rejecting signer the authorized-transaction composition aborts with that
signing failure. -/
theorem firstError_propagation_witness :
    generateDipSiblingBaseProof siblingEnvHeadFail siblingBaseInputA =
      .error .headDataMissing ∧
    generateDipAuthorizedTxForSibling siblingTxEnvSignFail siblingTxInputA =
      .error (.signingFailure "signer unavailable") := by
  constructor
  · exact firstError_propagation.1 siblingEnvHeadFail siblingBaseInputA .headDataMissing rfl
  · exact firstError_propagation.2.2.2.2.2 siblingTxEnvSignFail siblingTxInputA
      { proof := { blinded := 1, revealed := 2 }, root := 3 } "signer unavailable" rfl rfl

/-- Key lookup on an appended association list prefers the left part. -/
theorem lookup_append (l₁ l₂ : List (String × JsValue)) (k : String) :
    (l₁ ++ l₂).lookup k = ((l₁.lookup k).or (l₂.lookup k)) := by
  induction l₁ with
  | nil => simp [List.lookup]
  | cons p l ih =>
    rcases p with ⟨a, b⟩
    cases hk : k == a with
    | true => simp [List.lookup, hk]
    | false => simp [List.lookup, hk, ih]

/-- Key lookup misses when no entry carries the key. -/
theorem lookup_eq_none (l : List (String × JsValue)) (k : String)
    (h : ∀ p ∈ l, p.1 ≠ k) : l.lookup k = none := by
  induction l with
  | nil => rfl
  | cons p t ih =>
    rcases p with ⟨a, b⟩
    have ha : a ≠ k := h (a, b) (by simp)
    have hb : (k == a) = false := by simpa using (Ne.symm ha)
    simp only [List.lookup, hb]
    exact ih fun q hq => h q (by simp [hq])

/-- JS-object lookup on concatenated entries: a binding in the later
(spread) part shadows any earlier binding of the same key. -/
theorem jsLookup_append (base ext : List (String × JsValue)) (k : String) :
    jsLookup (base ++ ext) k = ((jsLookup ext k).or (jsLookup base k)) := by
  simp [jsLookup, List.reverse_append, lookup_append]

/-- JS-object lookup misses keys absent from the entry list. -/
theorem jsLookup_eq_none (l : List (String × JsValue)) (k : String)
    (h : ∀ p ∈ l, p.1 ≠ k) : jsLookup l k = none :=
  lookup_eq_none _ _ fun p hp => h p (List.mem_reverse.mp hp)

/-- C10: the version-tagged proof object of
`generateDipSubmittableExtrinsic` lists the base proof fields and then the
extension entries, so (i) any key bound by the extension map resolves to
the extension's value — in particular an extension key colliding with
`providerHeadProof`, `dipCommitmentProof` or `dipProof` silently replaces
that base component — and (ii) when the extension keys are disjoint from
the base field names, the three base proof components are unchanged (while
(i) still places every extension entry in the envelope). -/
theorem envelope_extension_merge (toChain : String → String)
    (baseDipProof : DipSiblingBaseProofRes) (ext : List (String × JsValue))
    (call : ConsumerCall) (didUri : String) :
    (generateDipSubmittableExtrinsic toChain ext baseDipProof call didUri).proofArgument =
      .obj [("V" ++ toString baseDipProof.proofVersion,
        .obj (baseProofEntries baseDipProof ++ ext))] ∧
    (∀ k v, jsLookup ext k = some v →
      jsLookup (baseProofEntries baseDipProof ++ ext) k = some v) ∧
    ((∀ p ∈ ext, p.1 ≠ "providerHeadProof" ∧ p.1 ≠ "dipCommitmentProof" ∧
        p.1 ≠ "dipProof") →
      jsLookup (baseProofEntries baseDipProof ++ ext) "providerHeadProof" =
        some (.obj
          [("relayBlockNumber", .num baseDipProof.providerHeadProof.relayBlockHeight),
           ("proof", .num baseDipProof.providerHeadProof.proof)]) ∧
      jsLookup (baseProofEntries baseDipProof ++ ext) "dipCommitmentProof" =
        some (.num baseDipProof.dipCommitmentProof.proof) ∧
      jsLookup (baseProofEntries baseDipProof ++ ext) "dipProof" =
        some (.obj
          [("blinded", .num baseDipProof.dipProof.proof.blinded),
           ("revealed", .num baseDipProof.dipProof.proof.revealed)])) := by
  refine ⟨rfl, ?_, ?_⟩
  · intro k v h
    rw [jsLookup_append, h]
    rfl
  · intro hdisj
    refine ⟨?_, ?_, ?_⟩
    · rw [jsLookup_append, jsLookup_eq_none ext _ fun p hp => (hdisj p hp).1]
      rfl
    · rw [jsLookup_append, jsLookup_eq_none ext _ fun p hp => (hdisj p hp).2.1]
      rfl
    · rw [jsLookup_append, jsLookup_eq_none ext _ fun p hp => (hdisj p hp).2.2]
      rfl

/-- Witness for C10: on a concrete base proof, a disjoint extension leaves
`dipProof` as the base leaves, while an extension entry named `dipProof`
replaces it. -/
theorem envelope_extension_merge_witness :
    jsLookup (baseProofEntries baseProofW ++ [("signature", .num 9)]) "dipProof" =
      some (.obj [("blinded", .num 1), ("revealed", .num 2)]) ∧
    jsLookup (baseProofEntries baseProofW ++ [("dipProof", .num 99)]) "dipProof" =
      some (.num 99) := by
  constructor
  · have h := ((envelope_extension_merge id baseProofW [("signature", .num 9)]
      (.post "Hello, world!") "did:kilt:alice").2.2 (by
        intro p hp
        simp only [List.mem_singleton] at hp
        subst hp
        refine ⟨by decide, by decide, by decide⟩)).2.2
    simpa [baseProofW] using h
  · exact (envelope_extension_merge id baseProofW [("dipProof", .num 99)]
      (.post "Hello, world!") "did:kilt:alice").2.1 "dipProof" (.num 99) rfl

end DipSdk
